import Mathlib

/-!
Verification of the PondCDRSuite CDR-notification pipeline.

This file shallowly embeds the core pipeline of `cdr_notify` (content
fingerprinting, dedup lookup, per-channel dispatch with retry, outcome
aggregation, and persistence) as executable Lean definitions, translated
from `utils.py`, `cdr_notify.py` and `database.py`, and proves or refutes
the stated behavioural properties.

Modelling conventions:
* A scanned file is a name plus an optional byte content; `none` models a
  file whose bytes cannot be read (`calculate_hash` returns `None` there).
* The SHA-256 digest is abstracted as a function parameter
  `digest : List Nat → List Nat` over the byte string
  `filename.encode("utf-8") + content`; filename bytes are modelled as
  code points, which coincide with UTF-8 bytes for the ASCII names used
  in all concrete scenarios.
* The SQLite table `cdr_files` is a list of rows plus an availability
  flag; an unavailable store makes every operation raise, which the
  embedded functions translate to the same fallbacks the Python
  `except` clauses produce.
* Channel sends are I/O black boxes, so each send is represented by its
  outcome (returned boolean, raised `NotificationError`, or any other
  raised exception), and the dispatch code is embedded as a function of
  those outcomes that also records which channels were attempted and
  which sleeps happened, in order.
-/

namespace PondCDR

/-- Status enum of `utils.FileStatus`: the source defines exactly the three
members SENT, PARTIAL and FAILED (there is no SKIPPED member). -/
inductive FileStatus where
  | SENT
  | PARTIAL_SUCCESS
  | FAILED
deriving DecidableEq

/-- One row of the `cdr_files` table (`database.init_db` schema): filename
(declared UNIQUE), file_hash, status, email_sent, telegram_sent. -/
structure FileRecord where
  filename : String
  file_hash : List Nat
  status : FileStatus
  email_sent : Bool
  telegram_sent : Bool
deriving DecidableEq

/-- The SQLite store: its rows, plus whether the storage backend is
reachable (an unreachable store makes every sqlite call raise). -/
structure DB where
  avail : Bool
  rows : List FileRecord
deriving DecidableEq

/-- A file in the watched folder: base name and optional byte content
(`none` models an unreadable file, for which `calculate_hash` fails). -/
structure FileEnt where
  name : String
  content : Option (List Nat)
deriving DecidableEq

/-- One entry of `os.listdir`: a name and whether `os.path.isfile` holds
for it (directories and other non-regular entries have `isFile = false`). -/
structure DirEntry where
  name : String
  isFile : Bool
deriving DecidableEq

/-- The flat string-keyed configuration map; a key absent from the dict is
modelled by the empty string, matching `config.get(key, "")`. -/
structure Config where
  CDR_FOLDER : String
  EMAIL_SEND : String
  TELEGRAM_SEND : String
  SMTP_HOST : String
  EMAIL_FROM : String
  EMAIL_TO : String
  TELEGRAM_BOT_TOKEN : String
  TELEGRAM_CHAT_ID : String
deriving DecidableEq

/-- Byte string of `filename.encode("utf-8")`, modelled by code points
(identical to the UTF-8 bytes for ASCII filenames). -/
def strBytes (s : String) : List Nat := s.data.map Char.toNat

/-- Embedding of `utils.calculate_hash`: digest of
`filename.encode("utf-8") + content`, `None` when the file cannot be
read. The digest itself is a parameter. -/
def calculate_hash (digest : List Nat → List Nat) (f : FileEnt) : Option (List Nat) :=
  f.content.map (fun c => digest (strBytes f.name ++ c))

/-- Modelled from the spec: `database.get_file_by_hash` is called by
`utils.is_known_file` and by the test suite but is absent from
`src/database.py`. Per spec section 4.2 the dedup lookup is keyed strictly
on the fingerprint and a storage failure propagates as a distinguishable
error rather than being conflated with "not found". -/
def get_file_by_hash (db : DB) (h : List Nat) : Except Unit (Option FileRecord) :=
  if db.avail then .ok (db.rows.find? (fun r => r.file_hash == h)) else .error ()

/-- Embedding of `utils.is_known_file`: hash failure yields `false`; a
raised storage error is caught (`except Exception`) and also yields
`false`; otherwise the lookup result decides. -/
def is_known_file (digest : List Nat → List Nat) (db : DB) (f : FileEnt) : Bool :=
  match calculate_hash digest f with
  | none => false
  | some h =>
    match get_file_by_hash db h with
    | .ok r => r.isSome
    | .error _ => false

/-- Embedding of `database.insert_file`: a plain `INSERT` into a table
whose `filename` column is UNIQUE. A row with the same filename already
present makes sqlite raise, which the function catches, returning
`False` with the table unchanged; an unreachable store likewise yields
`False`. On success the new row is appended and `True` returned. -/
def insert_file (db : DB) (filename : String) (h : List Nat) (st : FileStatus)
    (es ts : Bool) : Bool × DB :=
  if db.avail then
    if db.rows.any (fun r => r.filename == filename) then
      (false, db)
    else
      (true, { db with rows := db.rows ++ [⟨filename, h, st, es, ts⟩] })
  else
    (false, db)

/-- Whitespace test of Python `str.strip()` for the ASCII whitespace
characters. -/
def isPySpace (c : Char) : Bool :=
  c == ' ' || c == '\t' || c == '\n' || c == '\r' || c == '\x0b' || c == '\x0c'

/-- Embedding of Python `str.strip()`. -/
def pyStrip (s : String) : String :=
  ⟨((s.data.dropWhile isPySpace).reverse.dropWhile isPySpace).reverse⟩

/-- Lower-casing of one character, as Python `str.lower()` acts on the
ASCII configuration values in play. -/
def pyLowerChar (c : Char) : Char :=
  if 65 ≤ c.toNat && c.toNat ≤ 90 then Char.ofNat (c.toNat + 32) else c

/-- Embedding of Python `str.lower()` on ASCII strings. -/
def pyLower (s : String) : String := ⟨s.data.map pyLowerChar⟩

/-- The enablement test the source applies to a channel flag, inlined at
`utils.send_notifications` and `utils.validate_config`:
`config.get(KEY, "").strip().lower() == "true"`. -/
def is_channel_enabled (v : String) : Bool := pyLower (pyStrip v) == "true"

/-- Outcome of one channel-send call as observed by
`utils.send_notifications`: the sender returned a boolean, or raised
`NotificationError` with a message. -/
inductive ChannelOutcome where
  | ok (b : Bool)
  | err (msg : String)
deriving DecidableEq

/-- Result of `utils.send_notifications`, instrumented with which channels
were actually attempted (a call to the sender happened). -/
structure NotifyResult where
  email_attempted : Bool
  telegram_attempted : Bool
  email_sent : Bool
  telegram_sent : Bool
  errors : List String
deriving DecidableEq

/-- Embedding of `utils.send_notifications`: each channel is attempted only
when its flag is enabled, a disabled channel counts as success, a raised
`NotificationError` is caught and recorded, and errors are collected
email-first. -/
def send_notifications (cfg : Config) (ocE ocT : ChannelOutcome) : NotifyResult :=
  let e : Bool × Bool × List String :=
    if is_channel_enabled cfg.EMAIL_SEND then
      match ocE with
      | .ok b => (true, b, [])
      | .err m => (true, false, ["Email: " ++ m])
    else
      (false, true, [])
  let t : Bool × Bool × List String :=
    if is_channel_enabled cfg.TELEGRAM_SEND then
      match ocT with
      | .ok b => (true, b, [])
      | .err m => (true, false, ["Telegram: " ++ m])
    else
      (false, true, [])
  ⟨e.1, t.1, e.2.1, t.2.1, e.2.2 ++ t.2.2⟩

/-- Status derivation shared by `utils.process_file` and
`NotificationResult.status` in `cdr_notify.py`: both sent gives SENT, one
gives PARTIAL, none gives FAILED. -/
def statusOf (es ts : Bool) : FileStatus :=
  if es && ts then .SENT
  else if es || ts then .PARTIAL_SUCCESS
  else .FAILED

/-- Embedding of `utils.process_file`: hash the file (abort silently on
failure), dispatch the notifications, derive the status, then always call
`insert_file_record`, ignoring its boolean result. The first component
counts the channel dispatches performed for this file. -/
def process_file (digest : List Nat → List Nat) (cfg : Config)
    (oc : ChannelOutcome × ChannelOutcome) (db : DB) (f : FileEnt) : Nat × DB :=
  match calculate_hash digest f with
  | none => (0, db)
  | some h =>
    let r := send_notifications cfg oc.1 oc.2
    let n := (if r.email_attempted then 1 else 0) + (if r.telegram_attempted then 1 else 0)
    (n, (insert_file db f.name h (statusOf r.email_sent r.telegram_sent)
      r.email_sent r.telegram_sent).2)

/-- The filter of the run loop (`cdr_notify.CDRNotifyService.run` and
`utils.get_new_files`): keep the files not yet known. -/
def new_files (digest : List Nat → List Nat) (db : DB) (files : List FileEnt) :
    List FileEnt :=
  files.filter (fun f => ! is_known_file digest db f)

/-- Sequential processing of a list of files, threading the store and
summing the dispatch counts (the `for` loop of the run). -/
def process_list (digest : List Nat → List Nat) (cfg : Config)
    (oc : FileEnt → ChannelOutcome × ChannelOutcome) :
    List FileEnt → DB → Nat × DB
  | [], db => (0, db)
  | f :: fs, db =>
    let p := process_file digest cfg (oc f) db f
    let rest := process_list digest cfg oc fs p.2
    (p.1 + rest.1, rest.2)

/-- One scan pass (`CDRNotifyService.run`): list the known-filter survivors
against the store as it stands at the start of the pass, then process them
in order. -/
def run_pass (digest : List Nat → List Nat) (cfg : Config)
    (oc : FileEnt → ChannelOutcome × ChannelOutcome)
    (files : List FileEnt) (db : DB) : Nat × DB :=
  process_list digest cfg oc (new_files digest db files) db

/-- Python `name.startswith(".")`: true exactly when the first character is
a dot. -/
def startsWithDot (s : String) : Bool :=
  match s.data with
  | [] => false
  | c :: _ => c == '.'

/-- Lexicographic (code-point) comparison of character lists, the order
Python uses to compare and sort strings. -/
def charListLe : List Char → List Char → Bool
  | [], _ => true
  | _ :: _, [] => false
  | a :: as, b :: bs => if a < b then true else if b < a then false else charListLe as bs

/-- Python string comparison `a <= b`. -/
def strLe (a b : String) : Bool := charListLe a.data b.data

/-- Embedding of `utils.get_files`: on a listable folder, drop hidden
entries (leading dot), keep regular files, join each name onto the folder
path and sort the full paths (`files.sort()`); any listing error yields
the empty list. -/
def get_files (folder : String) (folderOk : Bool) (entries : List DirEntry) :
    List String :=
  if folderOk then
    List.insertionSort (fun a b => strLe a b = true)
      ((entries.filter (fun e => ! startsWithDot e.name && e.isFile)).map
        (fun e => folder ++ "/" ++ e.name))
  else
    []

/-- Outcome of one attempt inside the retry loop of `utils.retry`: the
wrapped send returned a boolean, or raised `NotificationError`. -/
inductive Attempt where
  | ok (b : Bool)
  | raised (msg : String)
deriving DecidableEq

/-- The loop body of `utils.retry` over the remaining attempt numbers:
success returns immediately; a `NotificationError` on a non-final attempt
sleeps `backoff_base ** attempt` and retries; on the final attempt the
last exception is re-raised. The first component records the sleeps
performed, in order. -/
def retry_go (att : Nat → Attempt) (backoff_base : Nat) :
    List Nat → List Nat × Except String Bool
  | [] => ([], .error "")
  | [i] =>
    match att i with
    | .ok v => ([], .ok v)
    | .raised m => ([], .error m)
  | i :: j :: rest =>
    match att i with
    | .ok v => ([], .ok v)
    | .raised _ =>
      let r := retry_go att backoff_base (j :: rest)
      (backoff_base ^ i :: r.1, r.2)

/-- Embedding of `utils.retry(max_attempts, backoff_base)` applied to a
send whose per-attempt outcomes are `att`: the loop runs over attempt
numbers `1 .. max_attempts`. -/
def retry_run (att : Nat → Attempt) (max_attempts backoff_base : Nat) :
    List Nat × Except String Bool :=
  retry_go att backoff_base (List.range' 1 max_attempts)

/-- The Telegram channel dispatcher: `TelegramSender.send` is decorated
with `@utils.retry(max_attempts=3)` and the default `backoff_base` 2. -/
def telegram_send (att : Nat → Attempt) : List Nat × Except String Bool :=
  retry_run att 3 2

/-- Modelled from the spec: the `EmailSender` class is imported by
`cdr_notify.py` and exercised by the test suite but absent from
`src/email_sender.py`; per spec section 4.3 the identical retry policy
(3 attempts, backoff 2^attempt) applies uniformly to the mail channel. -/
def email_send (att : Nat → Attempt) : List Nat × Except String Bool :=
  retry_run att 3 2

/-- Outcome of one sender call as observed by
`CDRNotifyService._send_notifications`: a returned boolean, a raised
`NotificationError`, or any other raised exception. -/
inductive SendOutcome where
  | ok (b : Bool)
  | notifErr (msg : String)
  | raised (msg : String)
deriving DecidableEq

deriving instance DecidableEq for Except

/-- Trace of `CDRNotifyService._send_notifications`: the channels whose
senders were called, in order, and either the collected result or the
exception that escaped the method. -/
structure DispatchTrace where
  attempted : List String
  result : Except String (Bool × Bool × List String)
deriving DecidableEq

/-- Embedding of `CDRNotifyService._send_notifications`: the email sender
is called first inside `try .. except NotificationError`, then the
Telegram sender likewise; only `NotificationError` is caught and recorded,
any other exception propagates out of the method immediately. -/
def send_both (ocEmail ocTelegram : SendOutcome) : DispatchTrace :=
  match ocEmail with
  | .raised m => ⟨["email"], .error m⟩
  | .ok b =>
    match ocTelegram with
    | .raised m => ⟨["email", "telegram"], .error m⟩
    | .ok b2 => ⟨["email", "telegram"], .ok (b, b2, [])⟩
    | .notifErr m2 => ⟨["email", "telegram"], .ok (b, false, ["Telegram: " ++ m2])⟩
  | .notifErr m =>
    match ocTelegram with
    | .raised m2 => ⟨["email", "telegram"], .error m2⟩
    | .ok b2 => ⟨["email", "telegram"], .ok (false, b2, ["Email: " ++ m])⟩
    | .notifErr m2 =>
      ⟨["email", "telegram"], .ok (false, false, ["Email: " ++ m, "Telegram: " ++ m2])⟩

/-- Embedding of `utils.validate_config`: CDR_FOLDER must be set and be an
existing directory; each channel's credential keys are demanded only when
that channel's flag passes the `is_channel_enabled` test. -/
def validate_config (cfg : Config) (isdir : String → Bool) : Except String Unit :=
  if pyStrip cfg.CDR_FOLDER == "" then
    .error "CDR_FOLDER is not set"
  else if ! isdir (pyStrip cfg.CDR_FOLDER) then
    .error "CDR_FOLDER does not exist"
  else if is_channel_enabled cfg.EMAIL_SEND
      && (pyStrip cfg.SMTP_HOST == "" || pyStrip cfg.EMAIL_FROM == ""
          || pyStrip cfg.EMAIL_TO == "") then
    .error "Missing required email config"
  else if is_channel_enabled cfg.TELEGRAM_SEND
      && (pyStrip cfg.TELEGRAM_BOT_TOKEN == "" || pyStrip cfg.TELEGRAM_CHAT_ID == "") then
    .error "Missing required Telegram config"
  else
    .ok ()

/-- A concrete digest for closed scenarios: the identity on byte strings
(injective, so distinct digest inputs stay distinct). -/
def idDigest : List Nat → List Nat := fun l => l

end PondCDR

namespace PondCDR

/-! ### Order-theoretic facts about the Python string comparison -/

theorem charListLe_cons (a b : Char) (as bs : List Char) :
    charListLe (a :: as) (b :: bs) = true ↔ a < b ∨ (a = b ∧ charListLe as bs = true) := by
  by_cases hab : a < b
  · simp [charListLe, hab]
  · by_cases hba : b < a
    · have hne : a ≠ b := ne_of_gt hba
      simp [charListLe, hab, hba, hne]
    · have heq : a = b := le_antisymm (not_lt.mp hba) (not_lt.mp hab)
      simp [charListLe, hab, hba, heq]

theorem charListLe_refl (u : List Char) : charListLe u u = true := by
  induction u with
  | nil => rfl
  | cons a as ih => simp [charListLe, lt_irrefl, ih]

theorem charListLe_total : ∀ u v : List Char, charListLe u v = true ∨ charListLe v u = true := by
  intro u
  induction u with
  | nil => intro v; left; rfl
  | cons a as ih =>
    intro v
    cases v with
    | nil => right; rfl
    | cons b bs =>
      rcases lt_trichotomy a b with h | h | h
      · left; exact (charListLe_cons a b as bs).mpr (Or.inl h)
      · rcases ih bs with h2 | h2
        · left; exact (charListLe_cons a b as bs).mpr (Or.inr ⟨h, h2⟩)
        · right; exact (charListLe_cons b a bs as).mpr (Or.inr ⟨h.symm, h2⟩)
      · right; exact (charListLe_cons b a bs as).mpr (Or.inl h)

theorem charListLe_trans :
    ∀ u v w : List Char, charListLe u v = true → charListLe v w = true →
      charListLe u w = true := by
  intro u
  induction u with
  | nil => intro v w _ _; rfl
  | cons a as ih =>
    intro v w huv hvw
    cases v with
    | nil => simp [charListLe] at huv
    | cons b bs =>
      cases w with
      | nil => simp [charListLe] at hvw
      | cons c cs =>
        rcases (charListLe_cons a b as bs).mp huv with h1 | ⟨h1, h1r⟩ <;>
          rcases (charListLe_cons b c bs cs).mp hvw with h2 | ⟨h2, h2r⟩
        · exact (charListLe_cons a c as cs).mpr (Or.inl (lt_trans h1 h2))
        · exact (charListLe_cons a c as cs).mpr (Or.inl (h2 ▸ h1))
        · exact (charListLe_cons a c as cs).mpr (Or.inl (h1 ▸ h2))
        · exact (charListLe_cons a c as cs).mpr (Or.inr ⟨h1.trans h2, ih bs cs h1r h2r⟩)

theorem charListLe_iff_lex :
    ∀ u v : List Char, charListLe u v = true ↔ u = v ∨ List.Lex (fun c d => c < d) u v := by
  intro u
  induction u with
  | nil =>
    intro v
    cases v with
    | nil => simp [charListLe]
    | cons b bs => simp [charListLe, List.Lex.nil]
  | cons a as ih =>
    intro v
    cases v with
    | nil =>
      constructor
      · intro h; simp [charListLe] at h
      · rintro (h | h)
        · exact absurd h (by simp)
        · cases h
    | cons b bs =>
      rw [charListLe_cons]
      constructor
      · rintro (h | ⟨rfl, hr⟩)
        · exact Or.inr (List.Lex.rel h)
        · rcases (ih bs).mp hr with rfl | hlex
          · exact Or.inl rfl
          · exact Or.inr (List.Lex.cons hlex)
      · rintro (heq | hlex)
        · injection heq with h1 h2
          subst h1
          subst h2
          exact Or.inr ⟨rfl, charListLe_refl as⟩
        · cases hlex with
          | rel h => exact Or.inl h
          | cons h => exact Or.inr ⟨rfl, (ih bs).mpr (Or.inr h)⟩

theorem charListLe_append (p u v : List Char) :
    charListLe (p ++ u) (p ++ v) = charListLe u v := by
  induction p with
  | nil => rfl
  | cons c cs ih => simp [charListLe, ih, lt_irrefl]

instance : IsTotal String (fun a b => strLe a b = true) :=
  ⟨fun a b => charListLe_total a.data b.data⟩

instance : IsTrans String (fun a b => strLe a b = true) :=
  ⟨fun a b c => charListLe_trans a.data b.data c.data⟩

theorem strLe_append_left (p a b : String) : strLe (p ++ a) (p ++ b) = strLe a b := by
  unfold strLe
  rw [String.data_append, String.data_append, charListLe_append]

end PondCDR

namespace PondCDR

/-! ### Store and pipeline helper lemmas -/

theorem is_known_file_true_iff (digest : List Nat → List Nat) (db : DB) (f : FileEnt)
    (hav : db.avail = true) :
    is_known_file digest db f = true ↔
      ∃ h, calculate_hash digest f = some h ∧ ∃ r ∈ db.rows, r.file_hash = h := by
  unfold is_known_file get_file_by_hash
  rw [hav]
  cases hcf : calculate_hash digest f with
  | none => simp
  | some h =>
    simp only [if_true, Option.isSome_iff_exists]
    constructor
    · intro hk
      refine ⟨h, rfl, ?_⟩
      have : (db.rows.find? (fun r => r.file_hash == h)).isSome = true := by
        rcases hk with ⟨r, hr⟩
        simp [hr]
      rcases List.find?_isSome.mp this with ⟨r, hrmem, hrp⟩
      exact ⟨r, hrmem, by simpa using hrp⟩
    · rintro ⟨h2, hh2, r, hrmem, hrhash⟩
      injection hh2 with hh2
      subst hh2
      have : (db.rows.find? (fun r => r.file_hash == h)).isSome = true :=
        List.find?_isSome.mpr ⟨r, hrmem, by simpa using hrhash⟩
      rcases Option.isSome_iff_exists.mp this with ⟨r2, hr2⟩
      exact ⟨r2, hr2⟩

theorem is_known_file_false_of_down (digest : List Nat → List Nat) (db : DB) (f : FileEnt)
    (hdown : db.avail = false) : is_known_file digest db f = false := by
  unfold is_known_file get_file_by_hash
  rw [hdown]
  cases calculate_hash digest f <;> simp

theorem is_known_file_mono (digest : List Nat → List Nat) (db db' : DB) (f : FileEnt)
    (hav : db.avail = true) (hav' : db'.avail = true)
    (hext : ∃ ext, db'.rows = db.rows ++ ext)
    (hk : is_known_file digest db f = true) : is_known_file digest db' f = true := by
  rcases hext with ⟨ext, hext⟩
  rcases (is_known_file_true_iff digest db f hav).mp hk with ⟨h, hcf, r, hrmem, hrhash⟩
  exact (is_known_file_true_iff digest db' f hav').mpr
    ⟨h, hcf, r, by rw [hext]; exact List.mem_append_left ext hrmem, hrhash⟩

theorem insert_file_fresh (db : DB) (fn : String) (h : List Nat) (st : FileStatus)
    (es ts : Bool) (hav : db.avail = true)
    (hfresh : ∀ r ∈ db.rows, r.filename ≠ fn) :
    insert_file db fn h st es ts = (true, ⟨true, db.rows ++ [⟨fn, h, st, es, ts⟩]⟩) := by
  obtain ⟨av, rows⟩ := db
  cases hav
  unfold insert_file
  have hany : rows.any (fun r => r.filename == fn) = false := by
    rw [Bool.eq_false_iff]
    intro hc
    rcases List.any_eq_true.mp hc with ⟨r, hrmem, hrp⟩
    exact hfresh r hrmem (by simpa using hrp)
  simp [hany]

theorem process_file_avail (digest : List Nat → List Nat) (cfg : Config)
    (oc : ChannelOutcome × ChannelOutcome) (db : DB) (f : FileEnt) :
    (process_file digest cfg oc db f).2.avail = db.avail := by
  unfold process_file insert_file
  cases calculate_hash digest f with
  | none => rfl
  | some h => split_ifs <;> rfl

theorem process_file_rows_ext (digest : List Nat → List Nat) (cfg : Config)
    (oc : ChannelOutcome × ChannelOutcome) (db : DB) (f : FileEnt) :
    ∃ ext, (process_file digest cfg oc db f).2.rows = db.rows ++ ext := by
  unfold process_file insert_file
  cases calculate_hash digest f with
  | none => exact ⟨[], by simp⟩
  | some h =>
    split_ifs
    · exact ⟨[], by simp⟩
    · exact ⟨_, rfl⟩
    · exact ⟨[], by simp⟩

theorem process_list_avail (digest : List Nat → List Nat) (cfg : Config)
    (oc : FileEnt → ChannelOutcome × ChannelOutcome) :
    ∀ (L : List FileEnt) (db : DB), (process_list digest cfg oc L db).2.avail = db.avail := by
  intro L
  induction L with
  | nil => intro db; rfl
  | cons f fs ih =>
    intro db
    unfold process_list
    simp only []
    rw [ih, process_file_avail]

theorem process_list_rows_ext (digest : List Nat → List Nat) (cfg : Config)
    (oc : FileEnt → ChannelOutcome × ChannelOutcome) :
    ∀ (L : List FileEnt) (db : DB),
      ∃ ext, (process_list digest cfg oc L db).2.rows = db.rows ++ ext := by
  intro L
  induction L with
  | nil => intro db; exact ⟨[], by simp [process_list]⟩
  | cons f fs ih =>
    intro db
    unfold process_list
    simp only []
    rcases process_file_rows_ext digest cfg (oc f) db f with ⟨e1, he1⟩
    rcases ih (process_file digest cfg (oc f) db f).2 with ⟨e2, he2⟩
    exact ⟨e1 ++ e2, by rw [he2, he1, List.append_assoc]⟩

theorem process_list_unreadable (digest : List Nat → List Nat) (cfg : Config)
    (oc : FileEnt → ChannelOutcome × ChannelOutcome) :
    ∀ (L : List FileEnt) (db : DB),
      (∀ f ∈ L, calculate_hash digest f = none) →
      (process_list digest cfg oc L db).1 = 0 := by
  intro L
  induction L with
  | nil => intro db _; rfl
  | cons f fs ih =>
    intro db hall
    unfold process_list
    simp only []
    have hf : process_file digest cfg (oc f) db f = (0, db) := by
      unfold process_file
      rw [hall f (List.mem_cons_self f fs)]
    rw [hf]
    simpa using ih db (fun g hg => hall g (List.mem_cons_of_mem f hg))

end PondCDR

namespace PondCDR

theorem process_file_none (digest : List Nat → List Nat) (cfg : Config)
    (oc : ChannelOutcome × ChannelOutcome) (db : DB) (f : FileEnt)
    (hcf : calculate_hash digest f = none) :
    process_file digest cfg oc db f = (0, db) := by
  unfold process_file
  rw [hcf]

theorem process_file_some (digest : List Nat → List Nat) (cfg : Config)
    (oc : ChannelOutcome × ChannelOutcome) (db : DB) (f : FileEnt) (h : List Nat)
    (hcf : calculate_hash digest f = some h) :
    process_file digest cfg oc db f =
      ((if (send_notifications cfg oc.1 oc.2).email_attempted then 1 else 0) +
        (if (send_notifications cfg oc.1 oc.2).telegram_attempted then 1 else 0),
       (insert_file db f.name h
          (statusOf (send_notifications cfg oc.1 oc.2).email_sent
            (send_notifications cfg oc.1 oc.2).telegram_sent)
          (send_notifications cfg oc.1 oc.2).email_sent
          (send_notifications cfg oc.1 oc.2).telegram_sent).2) := by
  unfold process_file
  rw [hcf]

theorem process_list_cons (digest : List Nat → List Nat) (cfg : Config)
    (oc : FileEnt → ChannelOutcome × ChannelOutcome) (f : FileEnt) (fs : List FileEnt)
    (db : DB) :
    process_list digest cfg oc (f :: fs) db =
      ((process_file digest cfg (oc f) db f).1 +
        (process_list digest cfg oc fs (process_file digest cfg (oc f) db f).2).1,
       (process_list digest cfg oc fs (process_file digest cfg (oc f) db f).2).2) := rfl

theorem process_list_hash_recorded (digest : List Nat → List Nat) (cfg : Config)
    (oc : FileEnt → ChannelOutcome × ChannelOutcome) :
    ∀ (L : List FileEnt) (db : DB),
      db.avail = true →
      (L.map FileEnt.name).Nodup →
      (∀ f ∈ L, ∀ r ∈ db.rows, r.filename ≠ f.name) →
      ∀ f ∈ L, ∀ h, calculate_hash digest f = some h →
        ∃ r ∈ (process_list digest cfg oc L db).2.rows, r.file_hash = h := by
  intro L
  induction L with
  | nil => intro db _ _ _ f hf; cases hf
  | cons f fs ih =>
    intro db hav hnodup hfresh g hg h hgh
    rcases List.mem_cons.mp hg with rfl | hgfs
    · -- the head file itself: its row is inserted and survives the rest
      have hins := insert_file_fresh db g.name h
        (statusOf (send_notifications cfg (oc g).1 (oc g).2).email_sent
          (send_notifications cfg (oc g).1 (oc g).2).telegram_sent)
        (send_notifications cfg (oc g).1 (oc g).2).email_sent
        (send_notifications cfg (oc g).1 (oc g).2).telegram_sent
        hav (hfresh g (List.mem_cons_self g fs))
      have hpf := process_file_some digest cfg (oc g) db g h hgh
      rw [process_list_cons, hpf, hins]
      rcases process_list_rows_ext digest cfg oc fs
        ⟨true, db.rows ++ [⟨g.name, h,
          statusOf (send_notifications cfg (oc g).1 (oc g).2).email_sent
            (send_notifications cfg (oc g).1 (oc g).2).telegram_sent,
          (send_notifications cfg (oc g).1 (oc g).2).email_sent,
          (send_notifications cfg (oc g).1 (oc g).2).telegram_sent⟩]⟩ with ⟨ext, hext⟩
      refine ⟨⟨g.name, h,
        statusOf (send_notifications cfg (oc g).1 (oc g).2).email_sent
          (send_notifications cfg (oc g).1 (oc g).2).telegram_sent,
        (send_notifications cfg (oc g).1 (oc g).2).email_sent,
        (send_notifications cfg (oc g).1 (oc g).2).telegram_sent⟩, ?_, rfl⟩
      rw [hext]
      simp
    · -- a later file: induction hypothesis on the store left by the head
      cases hcf : calculate_hash digest f with
      | none =>
        have hpf := process_file_none digest cfg (oc f) db f hcf
        rw [process_list_cons, hpf]
        exact ih db hav (List.Nodup.of_cons hnodup)
          (fun p hp r hr => hfresh p (List.mem_cons_of_mem f hp) r hr) g hgfs h hgh
      | some hf2 =>
        have hins := insert_file_fresh db f.name hf2
          (statusOf (send_notifications cfg (oc f).1 (oc f).2).email_sent
            (send_notifications cfg (oc f).1 (oc f).2).telegram_sent)
          (send_notifications cfg (oc f).1 (oc f).2).email_sent
          (send_notifications cfg (oc f).1 (oc f).2).telegram_sent
          hav (hfresh f (List.mem_cons_self f fs))
        have hpf := process_file_some digest cfg (oc f) db f hf2 hcf
        rw [process_list_cons, hpf, hins]
        refine ih _ rfl (List.Nodup.of_cons hnodup) ?_ g hgfs h hgh
        intro p hp r hr
        rcases List.mem_append.mp hr with hold | hnew
        · exact hfresh p (List.mem_cons_of_mem f hp) r hold
        · have : r = ⟨f.name, hf2,
              statusOf (send_notifications cfg (oc f).1 (oc f).2).email_sent
                (send_notifications cfg (oc f).1 (oc f).2).telegram_sent,
              (send_notifications cfg (oc f).1 (oc f).2).email_sent,
              (send_notifications cfg (oc f).1 (oc f).2).telegram_sent⟩ := by
            simpa using hnew
          rw [this]
          have hpair :
              (∀ x ∈ fs, ¬ FileEnt.name x = f.name) ∧
                (List.map FileEnt.name fs).Nodup := by
            simpa using hnodup
          intro hEq
          exact hpair.1 p hp hEq.symm
  
end PondCDR

namespace PondCDR

/-! ### Claim C3: the status table -/

/-- C3, counterexample. The claim asserts that with both channels disabled
the status is SKIPPED; in the code both disabled channels are counted as
sent and the derived status is SENT (the `FileStatus` enum has no SKIPPED
member at all), even when the underlying senders would have failed. -/
theorem c3_counterexample :
    statusOf
      (send_notifications ⟨"/cdr", "false", "false", "", "", "", "", ""⟩
        (.err "smtp down") (.err "api down")).email_sent
      (send_notifications ⟨"/cdr", "false", "false", "", "", "", "", ""⟩
        (.err "smtp down") (.err "api down")).telegram_sent = .SENT := by decide

/-- C3, amended. The final status is a pure function of the two channel
booleans with a disabled channel counted as true: both true gives SENT,
exactly one true gives PARTIAL, both false gives FAILED; the enum has only
these three members and when both channels are disabled both booleans are
true, so the status is SENT (there is no SKIPPED). -/
theorem c3_status_table_amended :
    statusOf true true = .SENT
    ∧ statusOf true false = .PARTIAL_SUCCESS
    ∧ statusOf false true = .PARTIAL_SUCCESS
    ∧ statusOf false false = .FAILED
    ∧ (∀ s : FileStatus, s = .SENT ∨ s = .PARTIAL_SUCCESS ∨ s = .FAILED)
    ∧ (∀ (cfg : Config) (ocE ocT : ChannelOutcome),
        is_channel_enabled cfg.EMAIL_SEND = false →
        is_channel_enabled cfg.TELEGRAM_SEND = false →
        send_notifications cfg ocE ocT = ⟨false, false, true, true, []⟩
          ∧ statusOf (send_notifications cfg ocE ocT).email_sent
              (send_notifications cfg ocE ocT).telegram_sent = .SENT) := by
  refine ⟨rfl, rfl, rfl, rfl, ?_, ?_⟩
  · intro s; cases s
    · exact Or.inl rfl
    · exact Or.inr (Or.inl rfl)
    · exact Or.inr (Or.inr rfl)
  · intro cfg ocE ocT hE hT
    have hsend : send_notifications cfg ocE ocT = ⟨false, false, true, true, []⟩ := by
      unfold send_notifications
      rw [hE, hT]
      rfl
    exact ⟨hsend, by rw [hsend]; rfl⟩

/-- C3 witness: the amended table evaluated at the all-disabled config. -/
theorem c3_witness :
    is_channel_enabled "false" = false
    ∧ statusOf
        (send_notifications ⟨"/cdr", "false", "false", "", "", "", "", ""⟩
          (.ok true) (.ok true)).email_sent
        (send_notifications ⟨"/cdr", "false", "false", "", "", "", "", ""⟩
          (.ok true) (.ok true)).telegram_sent = .SENT :=
  ⟨by decide,
    ((c3_status_table_amended.2.2.2.2.2 ⟨"/cdr", "false", "false", "", "", "", "", ""⟩
      (.ok true) (.ok true) (by decide) (by decide)).2)⟩

/-! ### Claim C5: the store is not an upsert keyed on the fingerprint -/

/-- C5, code bug. `database.insert_file` performs a plain `INSERT` into a
table whose UNIQUE column is `filename`, not an `INSERT OR REPLACE` keyed
on the fingerprint, contradicting the repository's own test
`test_insert_file_replace_on_duplicate_hash`. First conjunct: the test's
own input, two inserts under the same fingerprint with different
filenames, leaves two rows with that fingerprint (the test expects one,
replaced). Second conjunct: a write reusing a stored filename with a new
fingerprint is rejected and the store is left unchanged, so "same name,
new content" is not accepted as a distinct new record. -/
theorem c5_insert_not_upsert :
    (((insert_file
        (insert_file ⟨true, []⟩ "original.cdr" [10] .PARTIAL_SUCCESS true false).2
        "updated.cdr" [10] .SENT true true).2.rows.countP
          (fun r => r.file_hash == [10])) = 2)
    ∧ insert_file ⟨true, [⟨"test003.cdr", [1], .SENT, true, true⟩]⟩
        "test003.cdr" [2] .FAILED false false
      = (false, ⟨true, [⟨"test003.cdr", [1], .SENT, true, true⟩]⟩) := by decide

/-! ### Claim C6: the retry policy -/

/-- C6. The retry policy of `utils.retry` as instantiated on both channel
dispatchers (3 attempts, backoff base 2): a send failing twice then
succeeding on the third attempt performs exactly the sleeps 2 and 4, in
that order, and returns the success; a send failing all three attempts
performs the same two sleeps and then propagates the final channel error
with no further sleep; and the dispatch result depends only on the first
three attempts, so no fourth attempt is ever consulted. -/
theorem c6_retry_backoff (a : Nat → Attempt) (m1 m2 m3 : String) :
    (a 1 = .raised m1 → a 2 = .raised m2 → a 3 = .ok true →
      telegram_send a = ([2, 4], .ok true) ∧ email_send a = ([2, 4], .ok true))
    ∧ (a 1 = .raised m1 → a 2 = .raised m2 → a 3 = .raised m3 →
      telegram_send a = ([2, 4], .error m3) ∧ email_send a = ([2, 4], .error m3))
    ∧ (∀ b : Nat → Attempt, a 1 = b 1 → a 2 = b 2 → a 3 = b 3 →
      telegram_send a = telegram_send b ∧ email_send a = email_send b) := by
  have hrange : List.range' 1 3 = [1, 2, 3] := rfl
  refine ⟨?_, ?_, ?_⟩
  · intro h1 h2 h3
    constructor <;>
      simp [telegram_send, email_send, retry_run, hrange, retry_go, h1, h2, h3]
  · intro h1 h2 h3
    constructor <;>
      simp [telegram_send, email_send, retry_run, hrange, retry_go, h1, h2, h3]
  · intro b h1 h2 h3
    constructor <;>
      simp only [telegram_send, email_send, retry_run, hrange, retry_go, h1, h2, h3]

/-- C6 witness: the policy evaluated on a send that fails twice and on one
that always fails. -/
theorem c6_witness :
    ((fun i => if i ≤ 2 then Attempt.raised "boom" else .ok true) 1 = .raised "boom"
      ∧ (fun i => if i ≤ 2 then Attempt.raised "boom" else .ok true) 3 = .ok true
      ∧ telegram_send (fun i => if i ≤ 2 then Attempt.raised "boom" else .ok true)
          = ([2, 4], .ok true))
    ∧ telegram_send (fun _ => Attempt.raised "down") = ([2, 4], .error "down") :=
  ⟨⟨by decide, by decide,
    ((c6_retry_backoff (fun i => if i ≤ 2 then Attempt.raised "boom" else .ok true)
      "boom" "boom" "x").1 (by decide) (by decide) (by decide)).1⟩,
   ((c6_retry_backoff (fun _ => Attempt.raised "down") "down" "down" "down").2.1
      (by decide) (by decide) (by decide)).1⟩

/-! ### Claim C7: channel independence in `_send_notifications` -/

/-- C7, counterexample. The claim says any exception the email sender
raises must not prevent the Telegram attempt; but only `NotificationError`
is caught, so an email sender raising any other exception (for instance
the `TypeError` produced when `utils.send_notifications` calls the
three-argument `email_sender.send_email` with two arguments) escapes the
dispatcher before the Telegram sender is called. -/
theorem c7_counterexample :
    send_both (.raised "TypeError: missing argument") (.ok true)
      = ⟨["email"], .error "TypeError: missing argument"⟩
    ∧ ("telegram" ∈ (send_both (.raised "TypeError: missing argument") (.ok true)).attempted
        ↔ False) := by decide

/-- C7, amended. The two channels are dispatched independently in sequence
for `NotificationError` failures: the email sender is always attempted,
and whenever the email sender does not raise a non-`NotificationError`
exception the Telegram sender is attempted as well; a `NotificationError`
from either channel is recorded in its own error slot, collected
email-first, never short-circuiting the other channel. Exceptions of any
other class, however, propagate and skip the remaining channel. -/
theorem c7_independent_dispatch_amended (ocE ocT : SendOutcome) :
    "email" ∈ (send_both ocE ocT).attempted
    ∧ ((∀ m, ocE ≠ .raised m) → "telegram" ∈ (send_both ocE ocT).attempted)
    ∧ (∀ m1 m2, send_both (.notifErr m1) (.notifErr m2)
        = ⟨["email", "telegram"],
            .ok (false, false, ["Email: " ++ m1, "Telegram: " ++ m2])⟩)
    ∧ (∀ m b, send_both (.notifErr m) (.ok b)
        = ⟨["email", "telegram"], .ok (false, b, ["Email: " ++ m])⟩)
    ∧ (∀ m b, send_both (.ok b) (.notifErr m)
        = ⟨["email", "telegram"], .ok (b, false, ["Telegram: " ++ m])⟩) := by
  refine ⟨?_, ?_, ?_, ?_, ?_⟩
  · cases ocE <;> cases ocT <;> simp [send_both]
  · intro hnotraised
    cases ocE with
    | ok b => cases ocT <;> simp [send_both]
    | notifErr m => cases ocT <;> simp [send_both]
    | raised m => exact absurd rfl (hnotraised m)
  · intro m1 m2; rfl
  · intro m b; rfl
  · intro m b; rfl

/-- C7 witness: independence evaluated where the email channel fails with
a `NotificationError` and Telegram succeeds. -/
theorem c7_witness :
    (∀ m, SendOutcome.notifErr "smtp refused" ≠ .raised m)
    ∧ "telegram" ∈ (send_both (.notifErr "smtp refused") (.ok true)).attempted :=
  ⟨fun _ h => SendOutcome.noConfusion h,
    (c7_independent_dispatch_amended (.notifErr "smtp refused") (.ok true)).2.1
      (fun _ h => SendOutcome.noConfusion h)⟩

end PondCDR

namespace PondCDR

/-! ### Claim C8: eligible files and their order -/

theorem is_known_file_empty (digest : List Nat → List Nat) (f : FileEnt) :
    is_known_file digest ⟨true, []⟩ f = false := by
  unfold is_known_file get_file_by_hash
  cases calculate_hash digest f <;> simp [List.find?]

/-- C8. The eligible set of a scan consists exactly of the regular files of
the watched folder whose names do not start with a dot, each joined onto
the folder path; the eligible list is sorted in the string order, which on
the shared folder prefix is exactly the lexicographic order of the bare
filenames (third and fourth conjuncts); in particular files named z, a, m
come out in the order a, m, z, and with no prior records the run-loop
filter keeps that list unchanged. -/
theorem c8_eligible_files_sorted :
    (∀ (folder : String) (entries : List DirEntry) (p : String),
      p ∈ get_files folder true entries ↔
        ∃ e ∈ entries, e.isFile = true ∧ startsWithDot e.name = false
          ∧ p = folder ++ "/" ++ e.name)
    ∧ (∀ (folder : String) (entries : List DirEntry),
        List.Sorted (fun a b => strLe a b = true) (get_files folder true entries))
    ∧ (∀ p a b : String, strLe (p ++ a) (p ++ b) = strLe a b)
    ∧ (∀ a b : String, strLe a b = true ↔
        a = b ∨ List.Lex (fun c d => c < d) a.data b.data)
    ∧ get_files "/cdr" true [⟨"z", true⟩, ⟨"a", true⟩, ⟨"m", true⟩]
        = ["/cdr/a", "/cdr/m", "/cdr/z"]
    ∧ (∀ (digest : List Nat → List Nat) (files : List FileEnt),
        new_files digest ⟨true, []⟩ files = files) := by
  refine ⟨?_, ?_, strLe_append_left, ?_, by decide, ?_⟩
  · intro folder entries p
    unfold get_files
    rw [if_pos rfl,
      (List.perm_insertionSort (fun a b => strLe a b = true) _).mem_iff,
      List.mem_map]
    constructor
    · rintro ⟨e, hmem, rfl⟩
      rcases List.mem_filter.mp hmem with ⟨hent, hp⟩
      simp only [Bool.and_eq_true, Bool.not_eq_true'] at hp
      exact ⟨e, hent, hp.2, hp.1, rfl⟩
    · rintro ⟨e, hent, hfile, hdot, rfl⟩
      refine ⟨e, List.mem_filter.mpr ⟨hent, ?_⟩, rfl⟩
      simp [hdot, hfile]
  · intro folder entries
    unfold get_files
    rw [if_pos rfl]
    exact List.sorted_insertionSort (fun a b => strLe a b = true) _
  · intro a b
    unfold strLe
    rw [charListLe_iff_lex]
    constructor
    · rintro (h | h)
      · exact Or.inl (String.ext_iff.mpr h)
      · exact Or.inr h
    · rintro (h | h)
      · exact Or.inl (String.ext_iff.mp h)
      · exact Or.inr h
  · intro digest files
    unfold new_files
    rw [List.filter_eq_self]
    intro f _
    rw [is_known_file_empty digest f]
    rfl

/-! ### Claim C9: content sensitivity of the fingerprint -/

/-- C9. The fingerprint is the digest of the filename bytes concatenated
with the content bytes, so for any collision-free digest and a fixed
filename, two different byte contents yield different fingerprints:
content is part of the identity and a changed file under the same name is
treated as new work. -/
theorem c9_content_sensitivity (digest : List Nat → List Nat)
    (hinj : Function.Injective digest) (nm : String) (c1 c2 : List Nat)
    (hne : c1 ≠ c2) :
    calculate_hash digest ⟨nm, some c1⟩ ≠ calculate_hash digest ⟨nm, some c2⟩ := by
  unfold calculate_hash
  simp only [Option.map_some']
  intro h
  exact hne (List.append_cancel_left (hinj (Option.some.inj h)))

/-- C9 witness: the identity digest is injective and separates the contents
`[0]` and `[1]` under the filename `x.cdr`. -/
theorem c9_witness :
    Function.Injective idDigest
    ∧ ([0] : List Nat) ≠ [1]
    ∧ calculate_hash idDigest ⟨"x.cdr", some [0]⟩
        ≠ calculate_hash idDigest ⟨"x.cdr", some [1]⟩ :=
  ⟨fun _ _ h => h, by decide,
    c9_content_sensitivity idDigest (fun _ _ h => h) "x.cdr" [0] [1] (by decide)⟩

/-! ### Claim C10: the channel enable flag -/

/-- C10. A channel is enabled exactly when its flag, stripped and
lower-cased, equals the string "true": values such as "yes", "1", "on" or
an absent key (empty string) leave the channel disabled, in which case the
channel is never attempted, counts as sent in the aggregation, and its
credential keys are not demanded by `validate_config`. -/
theorem c10_enable_flag :
    (is_channel_enabled "yes" = false ∧ is_channel_enabled "1" = false
      ∧ is_channel_enabled "on" = false ∧ is_channel_enabled "" = false
      ∧ is_channel_enabled " TRUE " = true ∧ is_channel_enabled "true" = true)
    ∧ (∀ v : String, is_channel_enabled v = true ↔ pyLower (pyStrip v) = "true")
    ∧ (∀ (cfg : Config) (ocE ocT : ChannelOutcome),
        is_channel_enabled cfg.EMAIL_SEND = false →
        (send_notifications cfg ocE ocT).email_attempted = false
          ∧ (send_notifications cfg ocE ocT).email_sent = true)
    ∧ (∀ (cfg : Config) (ocE ocT : ChannelOutcome),
        is_channel_enabled cfg.TELEGRAM_SEND = false →
        (send_notifications cfg ocE ocT).telegram_attempted = false
          ∧ (send_notifications cfg ocE ocT).telegram_sent = true)
    ∧ (∀ (cfg : Config) (isdir : String → Bool),
        is_channel_enabled cfg.EMAIL_SEND = false →
        is_channel_enabled cfg.TELEGRAM_SEND = false →
        (pyStrip cfg.CDR_FOLDER == "") = false →
        isdir (pyStrip cfg.CDR_FOLDER) = true →
        validate_config cfg isdir = .ok ()) := by
  refine ⟨by decide, ?_, ?_, ?_, ?_⟩
  · intro v
    unfold is_channel_enabled
    exact beq_iff_eq
  · intro cfg ocE ocT hE
    unfold send_notifications
    rw [hE]
    cases hT : is_channel_enabled cfg.TELEGRAM_SEND <;> cases ocT <;> simp
  · intro cfg ocE ocT hT
    unfold send_notifications
    rw [hT]
    cases hE : is_channel_enabled cfg.EMAIL_SEND <;> cases ocE <;> simp
  · intro cfg isdir hE hT hfolder hdir
    unfold validate_config
    rw [hfolder, hE, hT, hdir]
    rfl

/-- C10 witness: a config whose flags read "yes" and "" with no credentials
set validates successfully and dispatches nothing. -/
theorem c10_witness :
    (is_channel_enabled "yes" = false
      ∧ is_channel_enabled "" = false
      ∧ (pyStrip " /cdr " == "") = false)
    ∧ (send_notifications ⟨" /cdr ", "yes", "", "", "", "", "", ""⟩
        (.err "x") (.err "y")).email_attempted = false
    ∧ validate_config ⟨" /cdr ", "yes", "", "", "", "", "", ""⟩
        (fun s => s == "/cdr") = .ok () :=
  ⟨⟨by decide, by decide, by decide⟩,
    (c10_enable_flag.2.2.1 ⟨" /cdr ", "yes", "", "", "", "", "", ""⟩
      (.err "x") (.err "y") (by decide)).1,
    c10_enable_flag.2.2.2.2 ⟨" /cdr ", "yes", "", "", "", "", "", ""⟩
      (fun s => s == "/cdr") (by decide) (by decide) (by decide) (by decide)⟩

end PondCDR

namespace PondCDR

/-! ### Claim C1: durability of the record under notification failure -/

/-- C1, counterexample. A scanned file whose fingerprint is computed
successfully but whose filename already has a row in the store (same name,
changed content, as set up by `test_workflow_same_filename_different_content`):
it is classified as new, both channels are dispatched and fail, yet the
plain `INSERT` is rejected by the UNIQUE(filename) constraint, so no
FAILED record is persisted and the file is still unknown — it will be
reprocessed on the next scan, contradicting the claim. -/
theorem c1_counterexample :
    is_known_file idDigest
      ⟨true, [⟨"a.cdr", strBytes "a.cdr" ++ [0], .SENT, true, true⟩]⟩
      ⟨"a.cdr", some [1]⟩ = false
    ∧ process_file idDigest ⟨"/cdr", "true", "true", "h", "f", "t", "k", "c"⟩
        (.err "smtp down", .err "api down")
        ⟨true, [⟨"a.cdr", strBytes "a.cdr" ++ [0], .SENT, true, true⟩]⟩
        ⟨"a.cdr", some [1]⟩
      = (2, ⟨true, [⟨"a.cdr", strBytes "a.cdr" ++ [0], .SENT, true, true⟩]⟩)
    ∧ is_known_file idDigest
        (process_file idDigest ⟨"/cdr", "true", "true", "h", "f", "t", "k", "c"⟩
          (.err "smtp down", .err "api down")
          ⟨true, [⟨"a.cdr", strBytes "a.cdr" ++ [0], .SENT, true, true⟩]⟩
          ⟨"a.cdr", some [1]⟩).2
        ⟨"a.cdr", some [1]⟩ = false := by decide

/-- C1, amended. For every scanned file whose fingerprint is computed
successfully and whose filename does not already occur in the reachable
store, `process_file` persists a record after dispatching, unconditionally
with respect to the notification outcome: the appended row carries the
fingerprint, the derived status and both channel booleans; the file is
then known (so not reprocessed on the next scan) and the run-loop filter
drops it; in particular when both enabled channels fail all retries the
persisted row has status FAILED with both flags false. -/
theorem c1_always_persisted_amended (digest : List Nat → List Nat) (cfg : Config)
    (ocE ocT : ChannelOutcome) (db : DB) (f : FileEnt) (c : List Nat)
    (hav : db.avail = true)
    (hc : f.content = some c)
    (hfresh : ∀ r ∈ db.rows, r.filename ≠ f.name) :
    (process_file digest cfg (ocE, ocT) db f).2.rows
      = db.rows ++ [⟨f.name, digest (strBytes f.name ++ c),
          statusOf (send_notifications cfg ocE ocT).email_sent
            (send_notifications cfg ocE ocT).telegram_sent,
          (send_notifications cfg ocE ocT).email_sent,
          (send_notifications cfg ocE ocT).telegram_sent⟩]
    ∧ is_known_file digest (process_file digest cfg (ocE, ocT) db f).2 f = true
    ∧ new_files digest (process_file digest cfg (ocE, ocT) db f).2 [f] = []
    ∧ (∀ m1 m2, ocE = .err m1 → ocT = .err m2 →
        is_channel_enabled cfg.EMAIL_SEND = true →
        is_channel_enabled cfg.TELEGRAM_SEND = true →
        (process_file digest cfg (ocE, ocT) db f).2.rows
          = db.rows ++ [⟨f.name, digest (strBytes f.name ++ c), .FAILED, false, false⟩]) := by
  have hcf : calculate_hash digest f = some (digest (strBytes f.name ++ c)) := by
    unfold calculate_hash
    rw [hc]
    rfl
  have hins := insert_file_fresh db f.name (digest (strBytes f.name ++ c))
    (statusOf (send_notifications cfg ocE ocT).email_sent
      (send_notifications cfg ocE ocT).telegram_sent)
    (send_notifications cfg ocE ocT).email_sent
    (send_notifications cfg ocE ocT).telegram_sent hav hfresh
  have hpf := process_file_some digest cfg (ocE, ocT) db f
    (digest (strBytes f.name ++ c)) hcf
  have hrows : (process_file digest cfg (ocE, ocT) db f).2.rows
      = db.rows ++ [⟨f.name, digest (strBytes f.name ++ c),
          statusOf (send_notifications cfg ocE ocT).email_sent
            (send_notifications cfg ocE ocT).telegram_sent,
          (send_notifications cfg ocE ocT).email_sent,
          (send_notifications cfg ocE ocT).telegram_sent⟩] := by
    rw [hpf, hins]
  have havail : (process_file digest cfg (ocE, ocT) db f).2.avail = true := by
    rw [process_file_avail]
    exact hav
  have hknown : is_known_file digest (process_file digest cfg (ocE, ocT) db f).2 f = true := by
    refine (is_known_file_true_iff digest _ f havail).mpr
      ⟨digest (strBytes f.name ++ c), hcf,
        ⟨f.name, digest (strBytes f.name ++ c),
          statusOf (send_notifications cfg ocE ocT).email_sent
            (send_notifications cfg ocE ocT).telegram_sent,
          (send_notifications cfg ocE ocT).email_sent,
          (send_notifications cfg ocE ocT).telegram_sent⟩, ?_, rfl⟩
    rw [hrows]
    simp
  refine ⟨hrows, hknown, ?_, ?_⟩
  · unfold new_files
    simp [hknown]
  · intro m1 m2 hE hT he ht
    subst hE
    subst hT
    have hsend : send_notifications cfg (.err m1) (.err m2)
        = ⟨true, true, false, false, ["Email: " ++ m1, "Telegram: " ++ m2]⟩ := by
      unfold send_notifications
      rw [he, ht]
      rfl
    rw [hrows, hsend]
    rfl

/-- C1 witness: the amended durability statement evaluated on a fresh file
with both channels enabled and failing. -/
theorem c1_witness :
    ((⟨true, []⟩ : DB).avail = true
      ∧ (⟨"b.cdr", some [7]⟩ : FileEnt).content = some [7]
      ∧ (∀ r ∈ (⟨true, []⟩ : DB).rows, r.filename ≠ "b.cdr"))
    ∧ is_known_file idDigest
        (process_file idDigest ⟨"/cdr", "true", "true", "h", "f", "t", "k", "c"⟩
          (.err "x", .err "y") ⟨true, []⟩ ⟨"b.cdr", some [7]⟩).2
        ⟨"b.cdr", some [7]⟩ = true :=
  ⟨⟨rfl, rfl, by decide⟩,
    (c1_always_persisted_amended idDigest ⟨"/cdr", "true", "true", "h", "f", "t", "k", "c"⟩
      (.err "x") (.err "y") ⟨true, []⟩ ⟨"b.cdr", some [7]⟩ [7]
      rfl rfl (by decide)).2.1⟩

/-! ### Claim C2: idempotent rescanning -/

/-- C2, counterexample. A store already holding a row for filename `a.cdr`
under an older fingerprint (the file's content changed after it was first
recorded): scanning the unchanged directory twice dispatches both channels
on the first pass, the write is rejected by the UNIQUE(filename)
constraint, and the second pass dispatches the same two notifications
again instead of zero. -/
theorem c2_counterexample :
    (run_pass idDigest ⟨"/cdr", "true", "true", "h", "f", "t", "k", "c"⟩
        (fun _ => (.err "e", .err "e")) [⟨"a.cdr", some [1]⟩]
        ⟨true, [⟨"a.cdr", strBytes "a.cdr" ++ [0], .SENT, true, true⟩]⟩).1 = 2
    ∧ (run_pass idDigest ⟨"/cdr", "true", "true", "h", "f", "t", "k", "c"⟩
        (fun _ => (.err "e", .err "e")) [⟨"a.cdr", some [1]⟩]
        (run_pass idDigest ⟨"/cdr", "true", "true", "h", "f", "t", "k", "c"⟩
          (fun _ => (.err "e", .err "e")) [⟨"a.cdr", some [1]⟩]
          ⟨true, [⟨"a.cdr", strBytes "a.cdr" ++ [0], .SENT, true, true⟩]⟩).2).1 = 2 := by
  decide

/-- C2, amended. Scanning the same directory twice with no changes to its
files yields zero newly-dispatched notifications on the second pass,
provided the store is reachable, the directory's filenames are distinct,
and no pre-existing row pairs one of those filenames with a different
fingerprint (such a row makes the plain INSERT reject the write, see C5):
every file whose fingerprint is computed is classified as already known
after the first pass, and the second pass dispatches nothing. -/
theorem c2_idempotent_rescan_amended (digest : List Nat → List Nat) (cfg : Config)
    (oc1 oc2 : FileEnt → ChannelOutcome × ChannelOutcome)
    (files : List FileEnt) (db0 : DB)
    (hav : db0.avail = true)
    (hnames : (files.map FileEnt.name).Nodup)
    (hold : ∀ f ∈ files, ∀ r ∈ db0.rows, r.filename = f.name →
      calculate_hash digest f = some r.file_hash) :
    (∀ f ∈ files, ∀ h, calculate_hash digest f = some h →
      is_known_file digest (run_pass digest cfg oc1 files db0).2 f = true)
    ∧ (run_pass digest cfg oc2 files (run_pass digest cfg oc1 files db0).2).1 = 0 := by
  have hs1avail : (run_pass digest cfg oc1 files db0).2.avail = true := by
    unfold run_pass
    rw [process_list_avail]
    exact hav
  have hext1 : ∃ ext, (run_pass digest cfg oc1 files db0).2.rows = db0.rows ++ ext := by
    unfold run_pass
    exact process_list_rows_ext digest cfg oc1 _ db0
  have hnodup_new : ((new_files digest db0 files).map FileEnt.name).Nodup := by
    have hsub : List.Sublist (new_files digest db0 files) files :=
      List.filter_sublist files
    exact hnames.sublist (hsub.map FileEnt.name)
  have hfresh_new : ∀ g ∈ new_files digest db0 files, ∀ r ∈ db0.rows,
      r.filename ≠ g.name := by
    intro g hg r hr hEq
    rcases List.mem_filter.mp hg with ⟨hgfiles, hgunk⟩
    have hknown : is_known_file digest db0 g = true :=
      (is_known_file_true_iff digest db0 g hav).mpr
        ⟨r.file_hash, hold g hgfiles r hr hEq, r, hr, rfl⟩
    rw [hknown] at hgunk
    exact Bool.false_ne_true hgunk
  have ha : ∀ f ∈ files, ∀ h, calculate_hash digest f = some h →
      is_known_file digest (run_pass digest cfg oc1 files db0).2 f = true := by
    intro f hf h hch
    by_cases hk : is_known_file digest db0 f = true
    · exact is_known_file_mono digest db0 _ f hav hs1avail hext1 hk
    · have hfnew : f ∈ new_files digest db0 files :=
        List.mem_filter.mpr ⟨hf, by rw [Bool.eq_false_iff.mpr hk]; rfl⟩
      rcases process_list_hash_recorded digest cfg oc1 (new_files digest db0 files) db0
        hav hnodup_new hfresh_new f hfnew h hch with ⟨r, hrmem, hrhash⟩
      exact (is_known_file_true_iff digest _ f hs1avail).mpr ⟨h, hch, r, hrmem, hrhash⟩
  refine ⟨ha, ?_⟩
  show (process_list digest cfg oc2
    (new_files digest (run_pass digest cfg oc1 files db0).2 files)
    (run_pass digest cfg oc1 files db0).2).1 = 0
  apply process_list_unreadable
  intro f hf
  rcases List.mem_filter.mp hf with ⟨hffiles, hfunk⟩
  cases hch : calculate_hash digest f with
  | none => rfl
  | some h =>
    rw [ha f hffiles h hch] at hfunk
    exact absurd hfunk Bool.false_ne_true

/-- C2 witness: two passes over a one-file directory starting from an empty
reachable store; the second pass dispatches nothing. -/
theorem c2_witness :
    ((⟨true, []⟩ : DB).avail = true
      ∧ ([⟨"a.cdr", some [1]⟩] : List FileEnt).map FileEnt.name = ["a.cdr"]
      ∧ (∀ f ∈ ([⟨"a.cdr", some [1]⟩] : List FileEnt), ∀ r ∈ (⟨true, []⟩ : DB).rows,
          r.filename = f.name → calculate_hash idDigest f = some r.file_hash))
    ∧ (run_pass idDigest ⟨"/cdr", "true", "true", "h", "f", "t", "k", "c"⟩
        (fun _ => (.ok true, .ok true)) [⟨"a.cdr", some [1]⟩]
        (run_pass idDigest ⟨"/cdr", "true", "true", "h", "f", "t", "k", "c"⟩
          (fun _ => (.ok true, .ok true)) [⟨"a.cdr", some [1]⟩] ⟨true, []⟩).2).1 = 0 :=
  ⟨⟨rfl, rfl, by decide⟩,
    (c2_idempotent_rescan_amended idDigest
      ⟨"/cdr", "true", "true", "h", "f", "t", "k", "c"⟩
      (fun _ => (.ok true, .ok true)) (fun _ => (.ok true, .ok true))
      [⟨"a.cdr", some [1]⟩] ⟨true, []⟩ rfl (by decide) (by decide)).2⟩

/-! ### Claim C4: behaviour under dedup-lookup failure -/

/-- C4, counterexample. With the storage backend down, the spec-modelled
lookup raises a distinguishable error even though the store's rows hold
the file's fingerprint; `is_known_file` swallows it and returns `false`
(conflating failure with not-found), the run-loop filter keeps the file,
and processing dispatches both enabled channels instead of halting with
none. -/
theorem c4_counterexample :
    get_file_by_hash
      ⟨false, [⟨"a.cdr", strBytes "a.cdr" ++ [1], .SENT, true, true⟩]⟩
      (strBytes "a.cdr" ++ [1]) = .error ()
    ∧ is_known_file idDigest
        ⟨false, [⟨"a.cdr", strBytes "a.cdr" ++ [1], .SENT, true, true⟩]⟩
        ⟨"a.cdr", some [1]⟩ = false
    ∧ new_files idDigest
        ⟨false, [⟨"a.cdr", strBytes "a.cdr" ++ [1], .SENT, true, true⟩]⟩
        [⟨"a.cdr", some [1]⟩] = [⟨"a.cdr", some [1]⟩]
    ∧ (run_pass idDigest ⟨"/cdr", "true", "true", "h", "f", "t", "k", "c"⟩
        (fun _ => (.err "e", .err "e")) [⟨"a.cdr", some [1]⟩]
        ⟨false, [⟨"a.cdr", strBytes "a.cdr" ++ [1], .SENT, true, true⟩]⟩).1 = 2 := by
  decide

/-- C4, amended. When the dedup store is unreachable the lookup failure is
swallowed, not propagated: `is_known_file` returns `false`, conflating the
error with "not found", so every scanned file is classified as new and its
enabled channels are dispatched within that scan; no record is written
(the insert fails on the unreachable store, leaving it unchanged), so the
file is retried on the next scan. -/
theorem c4_lookup_failure_amended (digest : List Nat → List Nat) (cfg : Config)
    (ocE ocT : ChannelOutcome) (db : DB) (f : FileEnt) (files : List FileEnt)
    (h : List Nat)
    (hdown : db.avail = false) :
    get_file_by_hash db h = .error ()
    ∧ is_known_file digest db f = false
    ∧ new_files digest db files = files
    ∧ (process_file digest cfg (ocE, ocT) db f).2 = db
    ∧ (∀ c, f.content = some c → is_channel_enabled cfg.EMAIL_SEND = true →
        1 ≤ (process_file digest cfg (ocE, ocT) db f).1) := by
  refine ⟨?_, is_known_file_false_of_down digest db f hdown, ?_, ?_, ?_⟩
  · unfold get_file_by_hash
    rw [hdown]
    rfl
  · unfold new_files
    rw [List.filter_eq_self]
    intro g _
    rw [is_known_file_false_of_down digest db g hdown]
    rfl
  · cases hcf : calculate_hash digest f with
    | none => rw [process_file_none digest cfg (ocE, ocT) db f hcf]
    | some h2 =>
      rw [process_file_some digest cfg (ocE, ocT) db f h2 hcf]
      unfold insert_file
      rw [hdown]
      rfl
  · intro c hc hE
    have hcf : calculate_hash digest f = some (digest (strBytes f.name ++ c)) := by
      unfold calculate_hash
      rw [hc]
      rfl
    rw [process_file_some digest cfg (ocE, ocT) db f (digest (strBytes f.name ++ c)) hcf]
    have hatt : (send_notifications cfg (ocE, ocT).1 (ocE, ocT).2).email_attempted = true := by
      unfold send_notifications
      rw [hE]
      cases ocE <;> rfl
    rw [hatt]
    exact Nat.le_add_right 1 _

/-- C4 witness: the amended behaviour evaluated with the store down and the
email channel enabled. -/
theorem c4_witness :
    (⟨false, []⟩ : DB).avail = false
    ∧ is_known_file idDigest ⟨false, []⟩ ⟨"a.cdr", some [1]⟩ = false
    ∧ 1 ≤ (process_file idDigest ⟨"/cdr", "true", "true", "h", "f", "t", "k", "c"⟩
        (.err "x", .err "y") ⟨false, []⟩ ⟨"a.cdr", some [1]⟩).1 :=
  ⟨rfl,
    (c4_lookup_failure_amended idDigest ⟨"/cdr", "true", "true", "h", "f", "t", "k", "c"⟩
      (.err "x") (.err "y") ⟨false, []⟩ ⟨"a.cdr", some [1]⟩ [] [] rfl).2.1,
    (c4_lookup_failure_amended idDigest ⟨"/cdr", "true", "true", "h", "f", "t", "k", "c"⟩
      (.err "x") (.err "y") ⟨false, []⟩ ⟨"a.cdr", some [1]⟩ [] [] rfl).2.2.2.2
      [1] rfl (by decide)⟩

end PondCDR
